import Mathlib

/-!
Shallow embedding of the categorizer / posting-construction logic of the
beancount-configuration importers, together with the price-cache and
class-level-state behaviour of the importer constructors.

Conventions of the embedding:
* Python exceptions are modelled by `Except PyExc`;
* Python `Decimal` string parsing (`beancount.core.number.D`) and
  `parse_date_liberally` are external library functions, abstracted as
  total function parameters `D : String → Int` and `parse_date : String → Nat`
  (dates are ordinals, amounts are exact integers in minor units — the
  claims under study only use exactness of negation and order on dates);
* a parsed row (a `namedtuple` in the source) is a finite map from field
  name to string value; attribute access on a missing field is an
  `AttributeError`, as for a Python namedtuple.
-/

/-- Python exception outcomes visible in the embedded code. -/
inductive PyExc where
  | assertionError (msg : String)
  | attributeError (msg : String)
  | typeError (msg : String)
deriving DecidableEq, Repr

/-- beancount.core.flags.FLAG_OKAY. -/
def FLAG_OKAY : String := "*"

/-- beancount.core.flags.FLAG_WARNING: the review marker. -/
def FLAG_WARNING : String := "!"

/-- Character allowed inside an account component (letters, digits, dash). -/
def isAccountChar (c : Char) : Bool := c.isAlpha || c.isDigit || c = '-'

/-- Split a character list on the colon separator. -/
def splitColon : List Char → List (List Char)
  | [] => [[]]
  | c :: rest =>
    let r := splitColon rest
    if c = ':' then [] :: r
    else
      match r with
      | [] => [[c]]
      | seg :: segs => (c :: seg) :: segs

/-- One account component: a permitted first character followed by account
characters. -/
def validComponent (firstOk : Char → Bool) : List Char → Bool
  | [] => false
  | c :: rest => firstOk c && rest.all isAccountChar

/-- Modelled from the spec: the ledger framework's account-validity predicate
(`beancount.core.account.is_valid`, external to this repository).  The spec
describes a structured account path of colon-separated hierarchical segments;
the framework's grammar requires at least two segments, the first beginning
with an uppercase letter and the rest with an uppercase letter or digit, all
characters being letters, digits or dashes. -/
def is_valid (s : String) : Bool :=
  match splitColon s.data with
  | [] => false
  | [_] => false
  | seg0 :: rest =>
    validComponent (fun c => c.isUpper) seg0 &&
      rest.all (validComponent (fun c => c.isUpper || c.isDigit))

/-- beancount `Amount`: an exact decimal number together with a currency. -/
structure Amount where
  number : Int
  currency : String
deriving DecidableEq, Repr

/-- Negation of an `Amount` (`-amount` in the source) negates the number and
keeps the currency. -/
def Amount.neg (a : Amount) : Amount := { a with number := -a.number }

/-- beancount `Posting` as constructed by the resolver: the source always
passes `cost=None, price=None, flag=None, meta=\x7b\x7d`. -/
structure Posting where
  account : String
  units : Amount
  cost : Option Unit := none
  price : Option Unit := none
  flag : Option String := none
  meta : List (String × String) := []
deriving DecidableEq, Repr

/-- `CategorizerResult` namedtuple from src/importers/categorizers.py with
fields `account, payee, narration, tags, flag` and defaults
`None, None, set(), None` for all but `account`. -/
structure CategorizerResult where
  account : Option String
  payee : Option String := none
  narration : Option String := none
  tags : List String := []
  flag : Option String := none
deriving DecidableEq, Repr

/-- A parsed source row: a namedtuple, i.e. a finite map from field name to
string value. -/
structure Row where
  fields : List (String × String)
deriving DecidableEq, Repr

/-- Python attribute access on a row namedtuple: `AttributeError` when the
field does not exist. -/
def Row.getattr (row : Row) (name : String) : Except PyExc String :=
  match row.fields.lookup name with
  | some v => .ok v
  | none => .error (.attributeError name)

/-- What a classifier may return besides `None`: a bare account-name string,
or a structured `CategorizerResult`. -/
inductive ClassifierOutput where
  | ofString (s : String)
  | ofResult (r : CategorizerResult)

/-- A classifier callable: row to optional result. -/
def Classifier : Type := Row → Option ClassifierOutput

/-- Normalisation done inside the resolver loop: a bare string result is
wrapped as `CategorizerResult(account=result)`. -/
def normalizeResult : ClassifierOutput → CategorizerResult
  | .ofString s => { account := some s }
  | .ofResult r => r

/-- The importer instance state read by the resolver and transaction
builder (`self.account`, `self.currency`, `self.invert_amounts`,
`self.categorizers`, `self.tags`).  The `tags` set is modelled by its
membership list. -/
structure Importer where
  account : String
  currency : String
  invert_amounts : Bool
  categorizers : List Classifier
  tags : List String

/-- `BankAccountBase.get_amount`: parse `row.amount` with `D` and attach the
configured currency, negating when `invert_amounts` is set. -/
def get_amount (D : String → Int) (imp : Importer) (row : Row) :
    Except PyExc Amount := do
  let s ← row.getattr "amount"
  if imp.invert_amounts then
    pure { number := -(D s), currency := imp.currency }
  else
    pure { number := D s, currency := imp.currency }

/-- The primary posting constructed first by `get_categorized_postings`. -/
def primaryPosting (acct : String) (amt : Amount) : Posting :=
  { account := acct, units := amt }

/-- The offsetting posting appended for the first classifier match: its units
are the negation of the primary amount. -/
def offsetPosting (acct : String) (amt : Amount) : Posting :=
  { account := acct, units := amt.neg }

/-- The loop body of `CategorizerMixin.get_categorized_postings` over the
already-evaluated classifier results.  `None` results are skipped; on a second
non-`None` result the final result's flag is replaced by `FLAG_WARNING` and
the loop breaks; a first non-`None` result is normalised, its account is
asserted valid, it becomes the final result and contributes the offsetting
posting. -/
def categorize_loop (amt : Amount) :
    List (Option ClassifierOutput) → List Posting → Option CategorizerResult →
      Except PyExc (List Posting × Option CategorizerResult)
  | [], postings, final_result => .ok (postings, final_result)
  | none :: rest, postings, final_result =>
    categorize_loop amt rest postings final_result
  | some out :: rest, postings, final_result =>
    match final_result with
    | some fr => .ok (postings, some { fr with flag := some FLAG_WARNING })
    | none =>
      let result := normalizeResult out
      match result.account with
      | none => .error (.typeError "expected string or bytes-like object")
      | some a =>
        if is_valid a then
          categorize_loop amt rest (postings ++ [offsetPosting a amt])
            (some result)
        else
          .error (.assertionError (a ++ " is not a valid account"))

/-- `CategorizerMixin.get_categorized_postings`: build the primary posting,
evaluate every classifier on the row, and run the resolution loop. -/
def get_categorized_postings (D : String → Int) (imp : Importer) (row : Row) :
    Except PyExc (List Posting × Option CategorizerResult) := do
  let amt ← get_amount D imp row
  categorize_loop amt (imp.categorizers.map (fun c => c row))
    [primaryPosting imp.account amt] none

/-- Python `x or default` for an optional string attribute: `None` and the
empty string are falsy. -/
def pyOr (v : Option String) (d : String) : String :=
  match v with
  | some s => if s = "" then d else s
  | none => d

/-- Python `value or row.field`: the row attribute is only read when the
left side is falsy (so a missing field only raises then). -/
def pyOrAttr (v : Option String) (row : Row) (name : String) :
    Except PyExc String :=
  match v with
  | some s => if s = "" then row.getattr name else pure s
  | none => row.getattr name

/-- Python `set.update` / `set |` on sets modelled as membership lists. -/
def pySetUnion (s t : List String) : List String :=
  s ++ t.filter (fun x => !(s.contains x))

/-- The transaction value built by `BankAccountBase.get_transaction` (the
metadata dict is reduced to its filename/lineno keys; extra metadata is not
used by the claims under study). -/
structure Transaction where
  filename : String
  lineno : Nat
  date : Nat
  flag : String
  payee : Option String
  narration : String
  tags : List String
  links : List String
  postings : List Posting
deriving DecidableEq, Repr

/-- `BankAccountBase.get_transaction`: categorize the row, substitute a dummy
result when none was produced, set the review flag whenever the posting count
differs from two, and assemble the transaction. -/
def get_transaction (D : String → Int) (parse_date : String → Nat)
    (imp : Importer) (row : Row) (file_name : String) (row_number : Nat) :
    Except PyExc Transaction := do
  let pc ← get_categorized_postings D imp row
  let postings := pc.1
  let categorizer_result :=
    pc.2.getD { account := some imp.account }
  let flag :=
    if postings.length ≠ 2 then FLAG_WARNING
    else pyOr categorizer_result.flag FLAG_OKAY
  let dateStr ← row.getattr "date"
  let narration ← pyOrAttr categorizer_result.narration row "description"
  pure {
    filename := file_name,
    lineno := row_number,
    date := parse_date dateStr,
    flag := flag,
    payee := categorizer_result.payee,
    narration := narration,
    tags := pySetUnion imp.tags categorizer_result.tags,
    links := [],
    postings := postings }

/-- Ordering on transactions used by `transactions.sort(key=lambda txn:
txn.date)`. -/
def txnLE (a b : Transaction) : Prop := a.date ≤ b.date

instance : DecidableRel txnLE :=
  fun a b => inferInstanceAs (Decidable (a.date ≤ b.date))

instance : IsTotal Transaction txnLE :=
  ⟨fun a b => Nat.le_total a.date b.date⟩

instance : IsTrans Transaction txnLE :=
  ⟨fun _ _ _ h1 h2 => Nat.le_trans h1 h2⟩

/-- `BankAccountBase.extract`: build one transaction per row, then sort the
list by transaction date (Python's stable sort is modelled by the stable
`insertionSort` on the date order). -/
def extract (D : String → Int) (parse_date : String → Nat) (imp : Importer)
    (file_name : String) (rows : List (Nat × Row)) :
    Except PyExc (List Transaction) := do
  let transactions ← rows.mapM
    (fun nr => get_transaction D parse_date imp nr.2 file_name nr.1)
  pure (List.insertionSort txnLE transactions)

/-- Loop of `BankAccountBase.file_date`: track the maximum of
`parse_date_liberally(row.order_date)` over the rows. -/
def file_date_loop (parse_date : String → Nat) :
    List (Nat × Row) → Option Nat → Except PyExc (Option Nat)
  | [], max_date => .ok max_date
  | (_, row) :: rest, max_date => do
    let s ← row.getattr "order_date"
    let parsed_date := parse_date s
    match max_date with
    | none => file_date_loop parse_date rest (some parsed_date)
    | some m =>
      if parsed_date > m then file_date_loop parse_date rest (some parsed_date)
      else file_date_loop parse_date rest (some m)

/-- `BankAccountBase.file_date` over the parsed rows of a file. -/
def file_date (parse_date : String → Nat) (rows : List (Nat × Row)) :
    Except PyExc (Option Nat) :=
  file_date_loop parse_date rows none

/-- The internal field names of the Chase bank-account row class
(src/importers/chase/bank_account.py), the working row class for
`BankAccountBase`: there is no `order_date` field. -/
def chase_row_field_names : List String :=
  ["transaction_date", "date", "description", "category", "type", "amount"]

/-- One non-mergeable field step of `merge_categorizer_results`: assert the
two values are equal or one is unset, and record the right value when the
left is unset. -/
def merge_field_check (field : String) (lv rv : Option String) :
    Except PyExc (Option String) :=
  if lv ≠ none ∧ rv ≠ none ∧ lv ≠ rv then
    .error (.assertionError
      ("Cannot merge CategorizerResults with different " ++ field ++ " values"))
  else if lv = none then .ok rv
  else .ok lv

/-- `merge_categorizer_results` from src/importers/categorizers.py, iterating
the fields in namedtuple order `account, payee, narration, tags, flag`.  At
the `tags` field (index 3) the source executes
`left[3] = (lambda l, r: l.update(r))(left, right)`; `CategorizerResult` is a
namedtuple, which has no `update` method, so evaluating the right-hand side
raises `AttributeError` (and the item assignment itself would equally be
impossible on a tuple), before the `flag` field or the final
`left._replace(**replacements)` is ever reached. -/
def merge_categorizer_results (left right : CategorizerResult) :
    Except PyExc CategorizerResult := do
  let _account ← merge_field_check "account" left.account right.account
  let _payee ← merge_field_check "payee" left.payee right.payee
  let _narration ← merge_field_check "narration" left.narration right.narration
  .error (.attributeError "update")

/-- The class-level mutable attributes shared by importer instances:
`CategorizerMixin.categorizers` (a class-attribute list) and
`BankAccountBase.tags` (a class-attribute set, modelled by its membership
list). -/
structure ImporterClassState where
  categorizers : List Classifier
  tags : List String

/-- Constructing a `BankAccountBase` instance runs
`self.categorizers.extend(categorizers)` (`CategorizerMixin.__init__`) and
`self.tags.update(tags)` (`BankAccountBase.__init__`); both names resolve to
the class attributes, so construction mutates the shared class state. -/
def importer_init (cls : ImporterClassState) (categorizers : List Classifier)
    (tags : List String) : ImporterClassState :=
  { categorizers := cls.categorizers ++ categorizers,
    tags := pySetUnion cls.tags tags }

/-- The shelve file contents used by `AlphaVantageBase.cached_request` for one
`(function, ticker)` key: optional `expiry` and `result` entries. -/
structure ShelfState (R : Type) where
  expiry : Option Int
  result : Option R
deriving DecidableEq, Repr

/-- `AlphaVantageBase.cached_request` for one `(function, ticker)` key.  The
wall clock (`now()`, Unix seconds) is the parameter `now`; the response of
`direct_request` is the parameter `fetch_result`.  Returns the value the
method returns, the shelve state after the call, and whether a remote fetch
(`direct_request`) was performed. -/
def cached_request (R : Type) (now : Int) (fetch_result : R)
    (db : ShelfState R) : Option R × ShelfState R × Bool :=
  if db.expiry.getD (-1) < now then
    let db2 : ShelfState R :=
      { expiry := some (now + 3600 * 24), result := some fetch_result }
    (db2.result, db2, true)
  else
    (db.result, db, false)

/-- Sample data: a classifier that always returns the groceries account. -/
def catGroceries : Classifier := fun _ => some (.ofString "Expenses:Food:Groceries")

/-- Sample data: a classifier that always returns the shopping account. -/
def catShopping : Classifier := fun _ => some (.ofString "Expenses:Shopping")

/-- Sample data: a classifier that never matches. -/
def catNever : Classifier := fun _ => none

/-- Sample data: a classifier returning a syntactically invalid account. -/
def catInvalid : Classifier := fun _ => some (.ofString "not-an-account")

/-- Sample data: a parsed bank row. -/
def rowCoffee : Row :=
  { fields := [("amount", "-450"), ("date", "2024-01-02"),
               ("description", "COFFEE SHOP")] }

/-- Sample data: a second parsed bank row with a later date. -/
def rowLater : Row :=
  { fields := [("amount", "-450"), ("date", "2024-01-05"),
               ("description", "BOOK STORE")] }

/-- Sample data: a Chase bank row, whose field names are exactly
`chase_row_field_names`. -/
def rowChase : Row :=
  { fields := [("transaction_date", "01/01/2024"), ("date", "01/02/2024"),
               ("description", "COFFEE"), ("category", "Food"),
               ("type", "Sale"), ("amount", "-4.50")] }

/-- Sample data: an importer configured over the given classifiers. -/
def sampleImporter (cats : List Classifier) : Importer :=
  { account := "Assets:Checking", currency := "USD", invert_amounts := false,
    categorizers := cats, tags := [] }

/-- Sample data: a decimal parser for the sample rows. -/
def sampleD : String → Int := fun s => if s = "-450" then -450 else 0

/-- Sample data: a date parser mapping the sample date strings to ordinals. -/
def sampleParseDate : String → Nat :=
  fun s => if s = "2024-01-05" then 20240105 else 20240102

/-- Sample data: the amount parsed from the sample rows. -/
def amtSample : Amount := { number := -450, currency := "USD" }

/-- Sample data: the uncategorized transaction built from `rowCoffee` at line
number 2. -/
def txnEarlier : Transaction :=
  { filename := "f", lineno := 2, date := 20240102, flag := FLAG_WARNING,
    payee := none, narration := "COFFEE SHOP", tags := [], links := [],
    postings := [primaryPosting "Assets:Checking" amtSample] }

/-- Sample data: the uncategorized transaction built from `rowLater` at line
number 1. -/
def txnLater : Transaction :=
  { filename := "f", lineno := 1, date := 20240105, flag := FLAG_WARNING,
    payee := none, narration := "BOOK STORE", tags := [], links := [],
    postings := [primaryPosting "Assets:Checking" amtSample] }

/-- Sample data: the uncategorized transaction built from `rowCoffee` at line
number 1. -/
def txnUncategorized : Transaction :=
  { filename := "f", lineno := 1, date := 20240102, flag := FLAG_WARNING,
    payee := none, narration := "COFFEE SHOP", tags := [], links := [],
    postings := [primaryPosting "Assets:Checking" amtSample] }

/-! ### Helper lemmas about the resolver loop -/

theorem categorize_loop_skip (amt : Amount)
    (as l : List (Option ClassifierOutput)) (ps : List Posting)
    (fin : Option CategorizerResult) (h : ∀ x ∈ as, x = none) :
    categorize_loop amt (as ++ l) ps fin = categorize_loop amt l ps fin := by
  induction as with
  | nil => rfl
  | cons a as ih =>
    have ha : a = none := h a (List.mem_cons_self a as)
    subst ha
    rw [List.cons_append]
    exact ih (fun x hx => h x (List.mem_cons_of_mem _ hx))

theorem categorize_loop_all_none (amt : Amount)
    (bs : List (Option ClassifierOutput)) (ps : List Posting)
    (fin : Option CategorizerResult) (h : ∀ x ∈ bs, x = none) :
    categorize_loop amt bs ps fin = .ok (ps, fin) := by
  have := categorize_loop_skip amt bs [] ps fin h
  rw [List.append_nil] at this
  rw [this]
  rfl

theorem categorize_loop_first (amt : Amount) (out : ClassifierOutput)
    (rest : List (Option ClassifierOutput)) (ps : List Posting) (a : String)
    (ha : (normalizeResult out).account = some a) (hv : is_valid a = true) :
    categorize_loop amt (some out :: rest) ps none =
      categorize_loop amt rest (ps ++ [offsetPosting a amt])
        (some (normalizeResult out)) := by
  simp only [categorize_loop, ha, hv, if_true]

theorem categorize_loop_break (amt : Amount) (out : ClassifierOutput)
    (rest : List (Option ClassifierOutput)) (ps : List Posting)
    (fr : CategorizerResult) :
    categorize_loop amt (some out :: rest) ps (some fr) =
      .ok (ps, some { fr with flag := some FLAG_WARNING }) := rfl

theorem categorize_loop_invalid (amt : Amount) (out : ClassifierOutput)
    (rest : List (Option ClassifierOutput)) (ps : List Posting) (a : String)
    (ha : (normalizeResult out).account = some a) (hv : is_valid a = false) :
    categorize_loop amt (some out :: rest) ps none =
      .error (.assertionError (a ++ " is not a valid account")) := by
  simp only [categorize_loop, ha, hv]
  rfl

theorem get_categorized_postings_eq (D : String → Int) (imp : Importer)
    (row : Row) (amt : Amount) (h : get_amount D imp row = .ok amt) :
    get_categorized_postings D imp row =
      categorize_loop amt (imp.categorizers.map (fun c => c row))
        [primaryPosting imp.account amt] none := by
  simp only [get_categorized_postings, h]
  rfl

/-! ### Helper lemmas about merging, lookups and set union -/

theorem merge_always_errors (l r : CategorizerResult) :
    (merge_categorizer_results l r).isOk = false := by
  unfold merge_categorizer_results
  cases h1 : merge_field_check "account" l.account r.account with
  | error e => rfl
  | ok v1 =>
    cases h2 : merge_field_check "payee" l.payee r.payee with
    | error e => rfl
    | ok v2 =>
      cases h3 : merge_field_check "narration" l.narration r.narration with
      | error e => rfl
      | ok v3 => rfl

theorem lookup_none_of_keys (name : String) :
    ∀ fields : List (String × String),
      (∀ k ∈ fields.map Prod.fst, k ≠ name) → fields.lookup name = none := by
  intro fields
  induction fields with
  | nil => intro _; rfl
  | cons kv rest ih =>
    intro h
    have hk : kv.1 ≠ name := h kv.1 (by simp)
    have hbeq : (name == kv.1) = false := beq_eq_false_iff_ne.mpr (Ne.symm hk)
    show List.lookup name (kv :: rest) = none
    rw [show (kv :: rest) = ((kv.1, kv.2) :: rest) from rfl, List.lookup, hbeq]
    exact ih (fun k hkm => h k (by simp [hkm]))

theorem mem_pySetUnion (x : String) (s t : List String) :
    x ∈ pySetUnion s t ↔ x ∈ s ∨ x ∈ t := by
  unfold pySetUnion
  constructor
  · intro h
    rcases List.mem_append.mp h with h1 | h2
    · exact Or.inl h1
    · exact Or.inr (List.mem_filter.mp h2).1
  · intro h
    by_cases hs : x ∈ s
    · exact List.mem_append.mpr (Or.inl hs)
    · rcases h with h1 | h2
      · exact absurd h1 hs
      · refine List.mem_append.mpr (Or.inr (List.mem_filter.mpr ⟨h2, ?_⟩))
        simp [hs]

/-! ### Reduction lemmas for the Except monad -/

theorem except_bind_ok {α β ε : Type} (a : α) (f : α → Except ε β) :
    (Except.ok a >>= f : Except ε β) = f a := rfl

theorem except_bind_error {α β ε : Type} (e : ε) (f : α → Except ε β) :
    (Except.error e >>= f : Except ε β) = Except.error e := rfl

theorem except_pure {α ε : Type} (a : α) :
    (pure a : Except ε α) = Except.ok a := rfl

/-! ### Claim theorems -/

/-- Claim C1: for every record and ordered classifier list in which two or
more classifiers return a non-None result (the first match carrying a
syntactically valid account, so that resolution does not abort), the resolver
returns a classification result whose flag is the review marker
`FLAG_WARNING`, whose other fields (account, payee, narration, tags) are
exactly those of the first match, and whose only offsetting posting is built
from the first match's account with the negated primary amount. -/
theorem c1_multiple_matches_first_wins_review_flag
    (D : String → Int) (imp : Importer) (row : Row) (amt : Amount)
    (as bs cs : List (Option ClassifierOutput)) (o1 o2 : ClassifierOutput)
    (a1 : String)
    (hamt : get_amount D imp row = .ok amt)
    (houts : imp.categorizers.map (fun c => c row)
      = as ++ some o1 :: (bs ++ some o2 :: cs))
    (has : ∀ x ∈ as, x = none) (hbs : ∀ x ∈ bs, x = none)
    (ha1 : (normalizeResult o1).account = some a1)
    (hv : is_valid a1 = true) :
    get_categorized_postings D imp row =
      .ok ([primaryPosting imp.account amt, offsetPosting a1 amt],
        some { normalizeResult o1 with flag := some FLAG_WARNING }) := by
  rw [get_categorized_postings_eq D imp row amt hamt, houts,
    categorize_loop_skip amt as _ _ _ has,
    categorize_loop_first amt o1 _ _ a1 ha1 hv,
    categorize_loop_skip amt bs _ _ _ hbs,
    categorize_loop_break]
  rfl

/-- Witness for C1 at a concrete row with two matching classifiers. -/
theorem c1_witness :
    get_categorized_postings sampleD
        (sampleImporter [catGroceries, catShopping]) rowCoffee =
      .ok ([primaryPosting "Assets:Checking" amtSample,
            offsetPosting "Expenses:Food:Groceries" amtSample],
        some { account := some "Expenses:Food:Groceries",
               flag := some FLAG_WARNING }) :=
  c1_multiple_matches_first_wins_review_flag sampleD
    (sampleImporter [catGroceries, catShopping]) rowCoffee amtSample
    [] [] [] (.ofString "Expenses:Food:Groceries") (.ofString "Expenses:Shopping")
    "Expenses:Food:Groceries" rfl rfl (by simp) (by simp) rfl (by decide)

/-- Claim C4: for every record and classifier list in which exactly one
classifier returns a non-None result with a syntactically valid account, the
resolver returns exactly two postings whose amounts are exact negatives of
each other (same currency, negated number, no rounding), and the
classification result is exactly the match itself, so its flag is unset
unless the match specified one. -/
theorem c4_single_match_two_balanced_postings
    (D : String → Int) (imp : Importer) (row : Row) (amt : Amount)
    (as bs : List (Option ClassifierOutput)) (o1 : ClassifierOutput)
    (a1 : String)
    (hamt : get_amount D imp row = .ok amt)
    (houts : imp.categorizers.map (fun c => c row) = as ++ some o1 :: bs)
    (has : ∀ x ∈ as, x = none) (hbs : ∀ x ∈ bs, x = none)
    (ha1 : (normalizeResult o1).account = some a1)
    (hv : is_valid a1 = true) :
    get_categorized_postings D imp row =
      .ok ([primaryPosting imp.account amt, offsetPosting a1 amt],
        some (normalizeResult o1))
    ∧ (offsetPosting a1 amt).units.number =
        -((primaryPosting imp.account amt).units.number)
    ∧ (offsetPosting a1 amt).units.currency =
        (primaryPosting imp.account amt).units.currency := by
  refine ⟨?_, rfl, rfl⟩
  rw [get_categorized_postings_eq D imp row amt hamt, houts,
    categorize_loop_skip amt as _ _ _ has,
    categorize_loop_first amt o1 _ _ a1 ha1 hv,
    categorize_loop_all_none amt bs _ _ hbs]
  rfl

/-- Witness for C4 at a concrete row with exactly one matching classifier. -/
theorem c4_witness :
    get_categorized_postings sampleD
        (sampleImporter [catNever, catGroceries]) rowCoffee =
      .ok ([primaryPosting "Assets:Checking" amtSample,
            offsetPosting "Expenses:Food:Groceries" amtSample],
        some { account := some "Expenses:Food:Groceries" })
    ∧ (offsetPosting "Expenses:Food:Groceries" amtSample).units.number =
        -((primaryPosting "Assets:Checking" amtSample).units.number)
    ∧ (offsetPosting "Expenses:Food:Groceries" amtSample).units.currency =
        (primaryPosting "Assets:Checking" amtSample).units.currency :=
  c4_single_match_two_balanced_postings sampleD
    (sampleImporter [catNever, catGroceries]) rowCoffee amtSample
    [none] [] (.ofString "Expenses:Food:Groceries") "Expenses:Food:Groceries"
    rfl rfl (by simp) (by simp) rfl (by decide)

/-- Claim C6: when the first matching classifier result carries a
syntactically invalid account path, the resolver fails immediately with the
assertion error naming the account, and produces no posting list. -/
theorem c6_invalid_account_raises
    (D : String → Int) (imp : Importer) (row : Row) (amt : Amount)
    (as rest : List (Option ClassifierOutput)) (o1 : ClassifierOutput)
    (a1 : String)
    (hamt : get_amount D imp row = .ok amt)
    (houts : imp.categorizers.map (fun c => c row) = as ++ some o1 :: rest)
    (has : ∀ x ∈ as, x = none)
    (ha1 : (normalizeResult o1).account = some a1)
    (hv : is_valid a1 = false) :
    get_categorized_postings D imp row =
      .error (.assertionError (a1 ++ " is not a valid account")) := by
  rw [get_categorized_postings_eq D imp row amt hamt, houts,
    categorize_loop_skip amt as _ _ _ has,
    categorize_loop_invalid amt o1 _ _ a1 ha1 hv]

/-- Witness for C6 at a concrete row whose winning classifier returns a
malformed account path. -/
theorem c6_witness :
    get_categorized_postings sampleD (sampleImporter [catInvalid]) rowCoffee =
      .error (.assertionError ("not-an-account" ++ " is not a valid account")) :=
  c6_invalid_account_raises sampleD (sampleImporter [catInvalid]) rowCoffee
    amtSample [] [] (.ofString "not-an-account") "not-an-account"
    rfl rfl (by simp) rfl (by decide)

/-- Claim C5: when no classifier returns a non-None result, the resolver
returns exactly one posting (the primary posting) and no classification
result, and any transaction built from the row carries the review flag
`FLAG_WARNING`. -/
theorem c5_no_match_single_posting_review
    (D : String → Int) (parse_date : String → Nat) (imp : Importer) (row : Row)
    (amt : Amount) (file_name : String) (row_number : Nat)
    (hamt : get_amount D imp row = .ok amt)
    (houts : ∀ x ∈ imp.categorizers.map (fun c => c row), x = none) :
    get_categorized_postings D imp row =
      .ok ([primaryPosting imp.account amt], none)
    ∧ ∀ txn, get_transaction D parse_date imp row file_name row_number =
        .ok txn → txn.flag = FLAG_WARNING := by
  have hmain : get_categorized_postings D imp row =
      .ok ([primaryPosting imp.account amt], none) := by
    rw [get_categorized_postings_eq D imp row amt hamt]
    exact categorize_loop_all_none amt _ _ none houts
  refine ⟨hmain, ?_⟩
  intro txn htxn
  unfold get_transaction at htxn
  rw [hmain, except_bind_ok] at htxn
  simp only [Option.getD_none] at htxn
  cases hd : row.getattr "date" with
  | error e =>
    simp only [hd, except_bind_error] at htxn
    exact Except.noConfusion htxn
  | ok dv =>
    simp only [hd, except_bind_ok] at htxn
    cases hdesc : row.getattr "description" with
    | error e =>
      simp only [pyOrAttr, hdesc, except_bind_error] at htxn
      exact Except.noConfusion htxn
    | ok nv =>
      simp only [pyOrAttr, hdesc, except_pure, except_bind_ok] at htxn
      injection htxn with h2
      rw [← h2]
      rfl

/-- Witness for C5 at a concrete row where the only classifier never
matches. -/
theorem c5_witness :
    get_categorized_postings sampleD (sampleImporter [catNever]) rowCoffee =
      .ok ([primaryPosting "Assets:Checking" amtSample], none)
    ∧ txnUncategorized.flag = FLAG_WARNING :=
  ⟨(c5_no_match_single_posting_review sampleD sampleParseDate
      (sampleImporter [catNever]) rowCoffee amtSample "f" 1 rfl
      (by simp [sampleImporter, catNever])).1,
   (c5_no_match_single_posting_review sampleD sampleParseDate
      (sampleImporter [catNever]) rowCoffee amtSample "f" 1 rfl
      (by simp [sampleImporter, catNever])).2 txnUncategorized rfl⟩

/-- Claim C7: every transaction list returned by `extract` is sorted in
non-decreasing order of transaction date. -/
theorem c7_extract_sorted_by_date
    (D : String → Int) (parse_date : String → Nat) (imp : Importer)
    (file_name : String) (rows : List (Nat × Row)) (txns : List Transaction)
    (h : extract D parse_date imp file_name rows = .ok txns) :
    List.Sorted txnLE txns := by
  unfold extract at h
  cases hm : rows.mapM
      (fun nr => get_transaction D parse_date imp nr.2 file_name nr.1) with
  | error e =>
    rw [hm, except_bind_error] at h
    exact Except.noConfusion h
  | ok ts =>
    rw [hm, except_bind_ok, except_pure] at h
    injection h with h2
    rw [← h2]
    exact List.sorted_insertionSort txnLE ts

/-- Witness for C7: extracting two rows given out of date order yields the
date-sorted transaction list. -/
theorem c7_witness : List.Sorted txnLE [txnEarlier, txnLater] :=
  c7_extract_sorted_by_date sampleD sampleParseDate (sampleImporter []) "f"
    [(1, rowLater), (2, rowCoffee)] [txnEarlier, txnLater] rfl

/-- Claim C10: `file_date` reads `row.order_date`, but rows of the working
bank-account row class (the Chase row class, whose internal field names are
`chase_row_field_names`) have no `order_date` field, so on every file with at
least one data row `file_date` raises `AttributeError`. -/
theorem c10_file_date_raises_attribute_error
    (parse_date : String → Nat) (n : Nat) (row : Row) (rest : List (Nat × Row))
    (h : row.fields.map Prod.fst = chase_row_field_names) :
    file_date parse_date ((n, row) :: rest) =
      .error (.attributeError "order_date") := by
  have hl : row.fields.lookup "order_date" = none := by
    apply lookup_none_of_keys
    rw [h]
    decide
  have hg : row.getattr "order_date" = .error (.attributeError "order_date") := by
    unfold Row.getattr
    rw [hl]
  show file_date_loop parse_date ((n, row) :: rest) none =
    .error (.attributeError "order_date")
  unfold file_date_loop
  rw [hg, except_bind_error]

/-- Witness for C10 at a concrete Chase row. -/
theorem c10_witness :
    file_date sampleParseDate [(1, rowChase)] =
      .error (.attributeError "order_date") :=
  c10_file_date_raises_attribute_error sampleParseDate 1 rowChase [] rfl

/-- Claim C2 (refuted by the code): merging two `CategorizerResult` values
with the same non-null account does not succeed.  The source mutates a
namedtuple (`left[i] = ...`) and calls the nonexistent `update` method on it
at the `tags` field, so the merge raises `AttributeError` on every call —
contradicting its own docstring, which promises the union of the two
results. -/
theorem c2_merge_equal_accounts_raises :
    merge_categorizer_results
      { account := some "Expenses:Food:Groceries" }
      { account := some "Expenses:Food:Groceries" } =
      .error (.attributeError "update") := rfl

/-- Claim C3: when some scalar field (account, payee, narration or flag) is
set on both sides with different values, `merge_categorizer_results` never
returns a merged result — the call raises.  (A conflict on a field before
`tags` raises that field's assertion; any call that gets past those fields
raises at the `tags` field, see C2 — either way nothing is silently
picked.) -/
theorem c3_merge_conflicting_scalar_raises (l r : CategorizerResult)
    (h : (l.account ≠ none ∧ r.account ≠ none ∧ l.account ≠ r.account)
      ∨ (l.payee ≠ none ∧ r.payee ≠ none ∧ l.payee ≠ r.payee)
      ∨ (l.narration ≠ none ∧ r.narration ≠ none ∧ l.narration ≠ r.narration)
      ∨ (l.flag ≠ none ∧ r.flag ≠ none ∧ l.flag ≠ r.flag)) :
    (merge_categorizer_results l r).isOk = false :=
  merge_always_errors l r

/-- Witness for C3 at two results with conflicting non-null accounts. -/
theorem c3_witness :
    (merge_categorizer_results
      { account := some "Expenses:Food:Groceries" }
      { account := some "Expenses:Shopping" }).isOk = false :=
  c3_merge_conflicting_scalar_raises
    { account := some "Expenses:Food:Groceries" }
    { account := some "Expenses:Shopping" }
    (Or.inl (by decide))

/-- Claim C8: `cached_request` returns the stored response without fetching
when the stored expiry timestamp has not yet passed; when the expiry is
absent or passed it performs the fetch, unconditionally overwrites both
stored entries, and sets the new expiry 86400 seconds (24 hours) ahead of
the current time.  `now` is a Unix timestamp, hence nonnegative. -/
theorem c8_cached_request_ttl (R : Type) (now : Int) (fetch_result : R)
    (db : ShelfState R) (hnow : 0 ≤ now) :
    (∀ exp, db.expiry = some exp → ¬ exp < now →
      cached_request R now fetch_result db = (db.result, db, false))
    ∧ ((db.expiry = none ∨ ∃ exp, db.expiry = some exp ∧ exp < now) →
      cached_request R now fetch_result db =
        (some fetch_result,
          { expiry := some (now + 86400), result := some fetch_result },
          true)) := by
  constructor
  · intro exp hexp hlt
    unfold cached_request
    rw [hexp]
    simp only [Option.getD_some]
    rw [if_neg hlt]
  · intro hcase
    have hlt : db.expiry.getD (-1) < now := by
      rcases hcase with hnone | ⟨exp, hexp, hlt⟩
      · rw [hnone]
        exact lt_of_lt_of_le (by norm_num) hnow
      · rw [hexp]
        simpa using hlt
    unfold cached_request
    rw [if_pos hlt]
    norm_num

/-- Witness for C8: a fresh entry is served from the cache without fetching;
an expired entry is overwritten with a new 24-hour expiry. -/
theorem c8_witness :
    cached_request Nat 100 7 { expiry := some 150, result := some 3 } =
      (some 3, { expiry := some 150, result := some 3 }, false)
    ∧ cached_request Nat 100 7 { expiry := some 50, result := some 3 } =
      (some 7, { expiry := some 86500, result := some 7 }, true) :=
  ⟨(c8_cached_request_ttl Nat 100 7 { expiry := some 150, result := some 3 }
      (by norm_num)).1 150 rfl (by norm_num),
   (c8_cached_request_ttl Nat 100 7 { expiry := some 50, result := some 3 }
      (by norm_num)).2 (Or.inr ⟨50, rfl, by norm_num⟩)⟩

/-- Claim C9: constructing an importer instance mutates the class-level
collections (the shared categorizers list via extend, the shared tags set via
update), so after two sequential constructions the categorizers and tags
supplied to the first construction are present in the class state read by the
second instance, and the second instance's resolver behaves exactly as if
configured with the first instance's categorizers as well. -/
theorem c9_init_mutates_shared_class_state
    (cls0 : ImporterClassState) (cats1 cats2 : List Classifier)
    (tags1 tags2 : List String) :
    (importer_init (importer_init cls0 cats1 tags1) cats2 tags2).categorizers
      = cls0.categorizers ++ cats1 ++ cats2
    ∧ (∀ c ∈ cats1, c ∈
        (importer_init (importer_init cls0 cats1 tags1) cats2 tags2).categorizers)
    ∧ (∀ x ∈ tags1, x ∈
        (importer_init (importer_init cls0 cats1 tags1) cats2 tags2).tags)
    ∧ ∀ (D : String → Int) (row : Row) (acct cur : String) (inv : Bool)
        (tg : List String),
        get_categorized_postings D
          { account := acct, currency := cur, invert_amounts := inv,
            categorizers := (importer_init (importer_init cls0 cats1 tags1)
              cats2 tags2).categorizers,
            tags := tg } row
        = get_categorized_postings D
          { account := acct, currency := cur, invert_amounts := inv,
            categorizers := cls0.categorizers ++ cats1 ++ cats2,
            tags := tg } row := by
  have hc : (importer_init (importer_init cls0 cats1 tags1) cats2
      tags2).categorizers = cls0.categorizers ++ cats1 ++ cats2 := rfl
  refine ⟨hc, ?_, ?_, ?_⟩
  · intro c hcm
    rw [hc]
    exact List.mem_append.mpr (Or.inl (List.mem_append.mpr (Or.inr hcm)))
  · intro x hx
    show x ∈ pySetUnion (pySetUnion cls0.tags tags1) tags2
    exact (mem_pySetUnion x _ _).mpr
      (Or.inl ((mem_pySetUnion x _ _).mpr (Or.inr hx)))
  · intro D row acct cur inv tg
    rw [hc]

/-- Witness for C9: a categorizer and a tag supplied only to the first
construction are present in the class state after a second construction that
supplies neither. -/
theorem c9_witness :
    (importer_init (importer_init { categorizers := [], tags := [] }
      [catGroceries] ["bank"]) [] []).categorizers = [] ++ [catGroceries] ++ []
    ∧ catGroceries ∈ (importer_init (importer_init
        { categorizers := [], tags := [] } [catGroceries] ["bank"]) [] []).categorizers
    ∧ "bank" ∈ (importer_init (importer_init
        { categorizers := [], tags := [] } [catGroceries] ["bank"]) [] []).tags :=
  ⟨(c9_init_mutates_shared_class_state { categorizers := [], tags := [] }
      [catGroceries] [] ["bank"] []).1,
   (c9_init_mutates_shared_class_state { categorizers := [], tags := [] }
      [catGroceries] [] ["bank"] []).2.1 catGroceries (by simp),
   (c9_init_mutates_shared_class_state { categorizers := [], tags := [] }
      [catGroceries] [] ["bank"] []).2.2.1 "bank" (by simp)⟩
